import Mathlib

/-!
# Verification of the modular email sender service (`src/main.py`)

Shallow embedding of the FastAPI SMTP email service: the request/response
data model, the attachment-URL resolution helper `download_file_from_url`,
the `EmailService.send_email` method and the `/send-email` endpoint.

External effects (the HTTP fetch of an attachment URL, the SMTP session
steps, `mimetypes.guess_type`, the wall clock) are modelled as explicit
inputs gathered in a `World` value; the Python control flow (including the
`try`/`except`/`finally` structure and Python truthiness checks) is
translated faithfully.

Bytes are modelled as `Nat` (with the invariant `< 256` stated where a
theorem needs it), byte strings as `List Nat`.
-/

set_option linter.unusedVariables false

/-! ## Request / response data model (`SendEmailRequest`, `ApiResponse`) -/

/-- `SendEmailRequest` (src/main.py lines 41-50). Email addresses are kept
as plain strings; pydantic validation is outside the embedded core. -/
structure SendEmailRequest where
  to_email : String
  subject : String
  body : String
  body_type : String := "html"
  from_name : Option String := none
  reply_to : Option String := none
  cc : Option (List String) := none
  bcc : Option (List String) := none
  attachments : Option (List String) := none
deriving DecidableEq, Repr

/-- The success payload dict returned by `EmailService.send_email`
(src/main.py lines 240-250). -/
structure DeliveryDict where
  emailId : String
  subject : String
  timestamp : String
  status : String
  recipients_to : String
  recipients_cc : List String
  recipients_bcc : List String
deriving DecidableEq, Repr

/-- `ApiResponse` (src/main.py lines 52-58); `result` specialised to the
delivery payload produced by the send-email endpoint. -/
structure ApiResponse where
  version : String := "1.0.0.0"
  statusCode : Nat
  message : String
  isError : Option Bool := none
  responseException : Option String := none
  result : Option DeliveryDict := none
deriving DecidableEq, Repr

/-- `fastapi.HTTPException`: a status code and a detail string. -/
structure HTTPException where
  status_code : Nat
  detail : String
deriving DecidableEq, Repr

/-- Python exceptions that can cross the `try` block of
`EmailService.send_email`: `HTTPException`, the three handled `smtplib`
exception classes, and any other exception (carrying its `str()`). -/
inductive PyExc where
  | http (status : Nat) (detail : String)
  | smtpAuth (msg : String)
  | smtpRcpt (msg : String)
  | smtpDisc (msg : String)
  | other (msg : String)
deriving DecidableEq, Repr

/-- Python `str(e)` for the exceptions above. Starlette's `HTTPException`
stringifies as `"{status_code}: {detail}"`; for the others the message is
the string form.  -/
def PyExc.str : PyExc → String
  | .http status detail => toString status ++ ": " ++ detail
  | .smtpAuth m => m
  | .smtpRcpt m => m
  | .smtpDisc m => m
  | .other m => m

/-! ## Python truthiness helpers -/

/-- Python truthiness of an optional list (`if request.cc:`):
`None` and `[]` are falsy. -/
def truthyList {α : Type} : Option (List α) → Bool
  | some (_ :: _) => true
  | _ => false

/-- Python truthiness of an optional string (`if request.reply_to:`,
`request.from_name or ...`): `None` and `""` are falsy. -/
def truthyStr : Option String → Bool
  | some s => s ≠ ""
  | none => false

/-! ## Attachment URL resolution (`download_file_from_url`, lines 61-148) -/

/-- The components of `urlparse(url)` that the code inspects, together
with the raw URL string. -/
structure Url where
  raw : String
  scheme : String
  netloc : String
  path : String
deriving DecidableEq, Repr

/-- The observable part of a `requests` response: declared
`Content-Length` (already parsed; `none` when the header is absent),
the streamed body chunks of `iter_content`, and the
`Content-Disposition` / `Content-Type` headers. -/
structure HttpResponse where
  contentLength : Option Nat
  chunks : List (List Nat)
  contentDisposition : String := ""
  contentType : Option String := none
deriving DecidableEq, Repr

/-- Outcome of `requests.get(url) ; response.raise_for_status()`:
either a `requests.RequestException` (network error or HTTP error
status, carrying `str(e)`) or a usable response. -/
inductive FetchResult where
  | netError (msg : String)
  | ok (resp : HttpResponse)
deriving DecidableEq, Repr

/-- The body-download loop (src/main.py lines 104-111): accumulate
`iter_content` chunks into `content`, failing as soon as the accumulated
length exceeds `max_size_bytes`. -/
def streamChunks (max_size_mb max_size_bytes : Nat) :
    List (List Nat) → List Nat → Except HTTPException (List Nat)
  | [], content => .ok content
  | chunk :: rest, content =>
    let content2 := content ++ chunk
    if content2.length > max_size_bytes then
      .error ⟨400, "File too large. Maximum size allowed: " ++ toString max_size_mb ++ "MB"⟩
    else
      streamChunks max_size_mb max_size_bytes rest content2

/-- Python `str.lower` (code-point-wise lowering; ASCII suffices for the
`body_type` comparison). -/
def pyLower (s : String) : String :=
  String.mk (s.data.map Char.toLower)

/-- Python `str.split(sep)` for a non-empty separator, on code points,
with explicit fuel (one unit per consumed character, so the fuel below
never runs out). -/
def pySplitGo (sep : List Char) : Nat → List Char → List Char → List (List Char)
  | 0, rest, cur => [cur.reverse ++ rest]
  | _ + 1, [], cur => [cur.reverse]
  | fuel + 1, c :: cs, cur =>
    if List.isPrefixOf sep (c :: cs) then
      cur.reverse :: pySplitGo sep fuel (List.drop sep.length (c :: cs)) []
    else
      pySplitGo sep fuel cs (c :: cur)

/-- Python `s.split(sep)` (all occurrences, non-empty separator). -/
def pySplit (s sep : String) : List String :=
  (pySplitGo sep.data (s.data.length + 1) s.data []).map String.mk

/-- Python `s.strip('"\'')`: remove every leading and trailing character
that is a double or single quote. -/
def stripQuotes (s : String) : String :=
  let p := fun c => c = '"' ∨ c = '\''
  String.mk (((s.data.dropWhile p).reverse.dropWhile p).reverse)

/-- The `Content-Disposition` filename extraction (lines 117-119):
`if 'filename=' in cd: filename = cd.split('filename=')[1].strip('"\'')`.
The separator occurs in `cd` iff the split has at least two pieces. -/
def extractCdFilename (cd : String) : Option String :=
  match pySplit cd "filename=" with
  | _ :: piece :: _ => some (stripQuotes piece)
  | _ => none

/-- `os.path.basename` on a POSIX path: the characters after the last
`'/'` (the whole string when there is no `'/'`). -/
def basename (p : String) : String :=
  String.mk ((p.data.reverse.takeWhile (fun c => ¬ (c = '/'))).reverse)

/-- Filename resolution (src/main.py lines 113-125): the
`Content-Disposition` `filename=` value when present and non-empty
(Python `if not filename:` treats `None` and `""` alike), else the last
path segment of the URL, else the literal `"attachment"`. -/
def resolveFilename (contentDisposition urlPath : String) : String :=
  let fromHeader : String :=
    match extractCdFilename contentDisposition with
    | some f => f
    | none => ""
  if fromHeader = "" then
    let fromPath := basename urlPath
    if fromPath = "" ∨ fromPath = "/" then "attachment" else fromPath
  else fromHeader

/-- Content-type resolution (src/main.py lines 127-133): the response
`Content-Type` header (default `application/octet-stream`); when it is
exactly the generic default, try `mimetypes.guess_type(filename)`
(modelled by the ambient `guess` function). -/
def resolveContentType (header : Option String) (guess : String → Option String)
    (filename : String) : String :=
  let content_type := header.getD "application/octet-stream"
  if content_type = "application/octet-stream" then
    match guess filename with
    | some g => g
    | none => content_type
  else content_type

/-- Result triple of `download_file_from_url`. -/
structure DownloadOk where
  content : List Nat
  filename : String
  content_type : String
deriving DecidableEq, Repr

/-- The `try` body of `download_file_from_url` (src/main.py lines
75-135).  The URL is given already parsed; `fetch` is the outcome of the
HTTP GET; `guess` models `mimetypes.guess_type`.  A failure is either a
`requests.RequestException` escaping the `requests` calls (`Sum.inl`,
carrying `str(e)`) or one of the `HTTPException(400, ...)`s raised by
the body itself for an invalid URL, an oversize declared
`Content-Length`, or a streaming overflow (`Sum.inr`). -/
def downloadTryBody (url : Url) (fetch : FetchResult)
    (guess : String → Option String) (max_size_mb : Nat) :
    Except (Sum String HTTPException) DownloadOk :=
  if url.scheme = "" ∨ url.netloc = "" then
    .error (.inr ⟨400, "Invalid URL format: " ++ url.raw⟩)
  else
    let max_size_bytes := max_size_mb * 1024 * 1024
    match fetch with
    | .netError msg => .error (.inl msg)
    | .ok resp =>
      let tooLarge : Bool :=
        match resp.contentLength with
        | some cl => cl > max_size_bytes
        | none => false
      if tooLarge then
        .error (.inr ⟨400, "File too large. Maximum size allowed: " ++ toString max_size_mb ++ "MB"⟩)
      else
        match streamChunks max_size_mb max_size_bytes resp.chunks [] with
        | .error e => .error (.inr e)
        | .ok content =>
          let filename := resolveFilename resp.contentDisposition url.path
          let content_type := resolveContentType resp.contentType guess filename
          .ok ⟨content, filename, content_type⟩

/-- `download_file_from_url` (src/main.py lines 61-148): the `try` body
above followed by the function's own `except` clauses.  A
`requests.RequestException` is re-raised by the first handler (lines
137-142) as `HTTPException(400, "Failed to download file from URL:
...")`, and that raise, happening inside a handler, escapes unchanged.
An `HTTPException` raised inside the `try` body is NOT matched by the
`RequestException` handler but IS matched by the blanket
`except Exception` (lines 143-148), which re-raises it as
`HTTPException(500, "Error processing attachment URL: {str(e)}")` with
`str(e) = "{status_code}: {detail}"` — so the body's 400s leave this
function as 500s. -/
def download_file_from_url (url : Url) (fetch : FetchResult)
    (guess : String → Option String) (max_size_mb : Nat := 10) :
    Except HTTPException DownloadOk :=
  match downloadTryBody url fetch guess max_size_mb with
  | .ok d => .ok d
  | .error (.inl msg) => .error ⟨400, "Failed to download file from URL: " ++ msg⟩
  | .error (.inr e) =>
    .error ⟨500, "Error processing attachment URL: " ++ PyExc.str (.http e.status_code e.detail)⟩

/-! ## Base64 transfer encoding (`encoders.encode_base64`) -/

/-- The base64 alphabet: sextet index to ASCII code. -/
def b64char (s : Nat) : Nat :=
  if s < 26 then 65 + s
  else if s < 52 then 97 + (s - 26)
  else if s < 62 then 48 + (s - 52)
  else if s = 62 then 43
  else 47

/-- Inverse of `b64char` on ASCII codes of alphabet characters. -/
def b64sext (c : Nat) : Nat :=
  if 65 ≤ c ∧ c ≤ 90 then c - 65
  else if 97 ≤ c ∧ c ≤ 122 then c - 97 + 26
  else if 48 ≤ c ∧ c ≤ 57 then c - 48 + 52
  else if c = 43 then 62
  else 63

/-- Standard base64 encoding of a byte string to ASCII codes, with `'='`
(code 61) padding — the payload produced by `encoders.encode_base64`. -/
def b64encode : List Nat → List Nat
  | [] => []
  | [a] =>
    let n := a * 65536
    [b64char (n / 262144), b64char (n / 4096 % 64), 61, 61]
  | [a, b] =>
    let n := a * 65536 + b * 256
    [b64char (n / 262144), b64char (n / 4096 % 64), b64char (n / 64 % 64), 61]
  | a :: b :: c :: rest =>
    let n := a * 65536 + b * 256 + c
    b64char (n / 262144) :: b64char (n / 4096 % 64) :: b64char (n / 64 % 64) :: b64char (n % 64)
      :: b64encode rest

/-- Standard base64 decoding (four ASCII codes at a time, honouring `'='`
padding). -/
def b64decode : List Nat → List Nat
  | w :: x :: y :: z :: rest =>
    if y = 61 then
      [(b64sext w * 262144 + b64sext x * 4096) / 65536]
    else if z = 61 then
      let m := b64sext w * 262144 + b64sext x * 4096 + b64sext y * 64
      [m / 65536, m / 256 % 256]
    else
      let m := b64sext w * 262144 + b64sext x * 4096 + b64sext y * 64 + b64sext z
      m / 65536 :: m / 256 % 256 :: m % 256 :: b64decode rest
  | _ => []

/-! ## Message building (src/main.py lines 167-204) -/

/-- The MIME subtype of the single body part. -/
inductive BodyTag where
  | html
  | plain
deriving DecidableEq, Repr

/-- One attachment part of the built message (lines 195-204): MIME
main/sub type from splitting the content type, the base64
transfer-encoded payload, and the `Content-Disposition` filename. -/
structure AttachmentPart where
  main_type : String
  sub_type : String
  payload_b64 : List Nat
  transfer_encoding : String
  filename : String
deriving DecidableEq, Repr

/-- The built MIME message: headers, the single body part, and the
attachment parts in request order. -/
structure Message where
  from_header : String
  to_header : String
  subject_header : String
  reply_to_header : Option String
  cc_header : Option String
  bcc_header : Option String
  bodyTag : BodyTag
  bodyText : String
  attachments : List AttachmentPart
deriving DecidableEq, Repr

/-- `content_type.split('/', 1) if '/' in content_type else
('application', 'octet-stream')` (src/main.py line 196). -/
def splitContentType (content_type : String) : String × String :=
  if content_type.data.contains '/' then
    (String.mk (content_type.data.takeWhile (fun c => ¬ (c = '/'))),
     String.mk ((content_type.data.dropWhile (fun c => ¬ (c = '/'))).drop 1))
  else ("application", "octet-stream")

/-- Build one attachment part from a resolved download (lines 195-204):
split the content type, set the payload, base64-encode it, and add the
`Content-Disposition` filename header. -/
def buildAttachmentPart (d : DownloadOk) : AttachmentPart :=
  let ms := splitContentType d.content_type
  { main_type := ms.1
    sub_type := ms.2
    payload_b64 := b64encode d.content
    transfer_encoding := "base64"
    filename := d.filename }

/-- SMTP relay configuration and the per-instance `smtp_connection`
attribute of `EmailService` (src/main.py lines 151-163). Connections are
identified by a `Nat` handle; `none` is Python `None`. -/
structure EmailService where
  smtp_connection : Option Nat
  smtp_server : String
  smtp_port : Nat
  username : String
  password : String
  use_tls : Bool
deriving DecidableEq, Repr

/-- Header and body construction of `EmailService.send_email`
(src/main.py lines 167-186) plus the attachment parts. Mirrors Python
truthiness: `request.from_name or self.username`, `if request.reply_to:`,
`if request.cc:`, `if request.bcc:`. -/
def buildMessage (svc : EmailService) (req : SendEmailRequest)
    (parts : List AttachmentPart) : Message :=
  { from_header :=
      (if truthyStr req.from_name then req.from_name.getD "" else svc.username)
        ++ " <" ++ svc.username ++ ">"
    to_header := req.to_email
    subject_header := req.subject
    reply_to_header := if truthyStr req.reply_to then req.reply_to else none
    cc_header :=
      if truthyList req.cc then some (String.intercalate ", " (req.cc.getD [])) else none
    bcc_header :=
      if truthyList req.bcc then some (String.intercalate ", " (req.bcc.getD [])) else none
    bodyTag := if pyLower req.body_type = "html" then .html else .plain
    bodyText := req.body
    attachments := parts }

/-! ## The send path (`EmailService.send_email`, lines 165-281) -/

/-- The environment of one request: `urlparse`, the HTTP fetch per
attachment URL, `mimetypes.guess_type`, the outcomes of the SMTP calls,
and `datetime.now().isoformat()`. -/
structure SmtpWorld where
  connect : Except PyExc Nat
  starttls : Except PyExc Unit
  login : Except PyExc Unit
  send : Except PyExc Unit
  quitInBody : Except PyExc Unit
  quitInFinally : Except PyExc Unit

structure World where
  parse : String → Url
  fetch : String → FetchResult
  guess : String → Option String
  smtp : SmtpWorld
  now : String

/-- The attachment loop (src/main.py lines 189-213): resolve each URL in
order; any exception from `download_file_from_url` is caught and
re-raised as `HTTPException(400, "Failed to process attachment from URL
{attachment}: {str(e)}")`.  (The `if request.attachments:` guard is
behaviourally the loop over the empty list.) -/
def processAttachments (parse : String → Url) (fetch : String → FetchResult)
    (guess : String → Option String) : List String → Except PyExc (List AttachmentPart)
  | [] => .ok []
  | attachment :: rest =>
    match download_file_from_url (parse attachment) (fetch attachment) guess 10 with
    | .error e =>
      .error (.http 400 ("Failed to process attachment from URL " ++ attachment ++ ": "
        ++ PyExc.str (.http e.status_code e.detail)))
    | .ok d =>
      match processAttachments parse fetch guess rest with
      | .error e => .error e
      | .ok parts => .ok (buildAttachmentPart d :: parts)

/-- The recipients list (src/main.py lines 224-229): `[to_email]`,
extended by `cc` and `bcc` when truthy. -/
def recipientsOf (req : SendEmailRequest) : List String :=
  let r0 := [req.to_email]
  let r1 := if truthyList req.cc then r0 ++ req.cc.getD [] else r0
  if truthyList req.bcc then r1 ++ req.bcc.getD [] else r1

/-- The success dict (src/main.py lines 240-250). -/
def mkDeliveryDict (req : SendEmailRequest) (now : String) : DeliveryDict :=
  { emailId := req.to_email
    subject := req.subject
    timestamp := now
    status := "sent"
    recipients_to := req.to_email
    recipients_cc := req.cc.getD []
    recipients_bcc := req.bcc.getD [] }

/-- Observable SMTP-side events of one `send_email` call: the
`sendmail(self.username, recipients, text)` call, the in-`try`
`quit()` (line 236) and the `finally`-block `quit()` (line 279), each
with whether the call succeeded. -/
inductive Ev where
  | sendmailEv (sender : String) (recipients : List String) (msg : Message)
  | quitBody (cid : Nat) (ok : Bool)
  | quitFin (cid : Nat) (ok : Bool)
deriving DecidableEq, Repr

/-- Whether a modelled Python call returned normally. -/
def isOkB : Except PyExc Unit → Bool
  | .ok _ => true
  | .error _ => false

/-- The `try` block of `EmailService.send_email` (src/main.py lines
166-250).  Returns the value of `self.smtp_connection` when the block
exits (the assignment on line 216 only happens if `smtplib.SMTP(...)`
returns), the normal/exceptional outcome, and the SMTP events. -/
def tryBody (svc : EmailService) (req : SendEmailRequest) (w : World) :
    Option Nat × Except PyExc DeliveryDict × List Ev :=
  match processAttachments w.parse w.fetch w.guess (req.attachments.getD []) with
  | .error e => (svc.smtp_connection, .error e, [])
  | .ok parts =>
    let msg := buildMessage svc req parts
    match w.smtp.connect with
    | .error e => (svc.smtp_connection, .error e, [])
    | .ok cid =>
      match (if svc.use_tls then w.smtp.starttls else .ok ()) with
      | .error e => (some cid, .error e, [])
      | .ok _ =>
        match w.smtp.login with
        | .error e => (some cid, .error e, [])
        | .ok _ =>
          let recipients := recipientsOf req
          let evSend := Ev.sendmailEv svc.username recipients msg
          match w.smtp.send with
          | .error e => (some cid, .error e, [evSend])
          | .ok _ =>
            match w.smtp.quitInBody with
            | .error e => (some cid, .error e, [evSend, .quitBody cid false])
            | .ok _ => (some cid, .ok (mkDeliveryDict req w.now), [evSend, .quitBody cid true])

/-- The `except` clauses of `EmailService.send_email` (src/main.py lines
252-275), in source order: `SMTPAuthenticationError → 401`,
`SMTPRecipientsRefused → 400`, `SMTPServerDisconnected → 503`, any other
`Exception` (including an escaping `HTTPException`) `→ 500`. -/
def mapExc : PyExc → HTTPException
  | .smtpAuth m => ⟨401, "SMTP Authentication failed: " ++ m⟩
  | .smtpRcpt m => ⟨400, "Invalid recipient email address: " ++ m⟩
  | .smtpDisc m => ⟨503, "SMTP Server connection lost: " ++ m⟩
  | e => ⟨500, "Failed to send email: " ++ PyExc.str e⟩

/-- `EmailService.send_email` (src/main.py lines 165-281): run the `try`
body, map an escaping exception through the `except` clauses, then run
the `finally` block (lines 276-281): if `self.smtp_connection` is not
`None`, attempt `quit()` and swallow any error.  Returns the updated
service, the outcome, and the SMTP events. -/
def EmailService.send_email (svc : EmailService) (req : SendEmailRequest) (w : World) :
    EmailService × Except HTTPException DeliveryDict × List Ev :=
  let r := tryBody svc req w
  let res : Except HTTPException DeliveryDict :=
    match r.2.1 with
    | .ok d => .ok d
    | .error e => .error (mapExc e)
  let evs : List Ev :=
    match r.1 with
    | some cid => r.2.2 ++ [Ev.quitFin cid (isOkB w.smtp.quitInFinally)]
    | none => r.2.2
  ({ svc with smtp_connection := r.1 }, res, evs)

/-- The `/send-email` endpoint (src/main.py lines 308-356): an
uninitialised service yields the fixed 500 response; otherwise the
service outcome is wrapped into the `ApiResponse` envelope
(success → 200, `HTTPException` → its status code and detail). -/
def send_email (email_service : Option EmailService) (req : SendEmailRequest) (w : World) :
    Option EmailService × ApiResponse :=
  match email_service with
  | none =>
    (none,
     { statusCode := 500
       message := "Failed to send email"
       isError := some true
       responseException := some "Email service not initialized. Please check environment variables."
       result := none })
  | some svc =>
    let r := EmailService.send_email svc req w
    match r.2.1 with
    | .ok d =>
      (some r.1,
       { statusCode := 200, message := "Email sent successfully"
         isError := none, responseException := none, result := some d })
    | .error e =>
      (some r.1,
       { statusCode := e.status_code, message := "Failed to send email"
         isError := some true, responseException := some e.detail, result := none })

/-! ## Helper lemmas -/

/-- `b64sext` inverts `b64char` on every sextet value. -/
theorem b64sext_b64char : ∀ s : Nat, s < 64 → b64sext (b64char s) = s := by decide

/-- No alphabet character is the padding character `'='` (code 61). -/
theorem b64char_ne_61 : ∀ s : Nat, s < 64 → b64char s ≠ 61 := by decide

/-- Base64 round-trip: decoding the encoding of a byte string recovers
it exactly. -/
theorem b64_roundtrip : ∀ bs : List Nat, (∀ b ∈ bs, b < 256) →
    b64decode (b64encode bs) = bs := by
  intro bs
  induction bs using b64encode.induct with
  | case1 => intro _; rfl
  | case2 a =>
    intro h
    have ha : a < 256 := h a (by simp)
    have h1 : a * 65536 / 262144 < 64 := by omega
    have h2 : a * 65536 / 4096 % 64 < 64 := by omega
    simp only [b64encode, b64decode, if_true]
    rw [b64sext_b64char _ h1, b64sext_b64char _ h2]
    simp only [List.cons.injEq, and_true]
    omega
  | case3 a b =>
    intro h
    have ha : a < 256 := h a (by simp)
    have hb : b < 256 := h b (by simp)
    have h1 : (a * 65536 + b * 256) / 262144 < 64 := by omega
    have h2 : (a * 65536 + b * 256) / 4096 % 64 < 64 := by omega
    have h3 : (a * 65536 + b * 256) / 64 % 64 < 64 := by omega
    simp only [b64encode, b64decode]
    rw [if_neg (b64char_ne_61 _ h3)]
    simp only [if_true]
    rw [b64sext_b64char _ h1, b64sext_b64char _ h2, b64sext_b64char _ h3]
    simp only [List.cons.injEq, and_true]
    constructor
    · omega
    · omega
  | case4 a b c rest ih =>
    intro h
    have ha : a < 256 := h a (by simp)
    have hb : b < 256 := h b (by simp)
    have hc : c < 256 := h c (by simp)
    have h1 : (a * 65536 + b * 256 + c) / 262144 < 64 := by omega
    have h2 : (a * 65536 + b * 256 + c) / 4096 % 64 < 64 := by omega
    have h3 : (a * 65536 + b * 256 + c) / 64 % 64 < 64 := by omega
    have h4 : (a * 65536 + b * 256 + c) % 64 < 64 := by omega
    simp only [b64encode, b64decode]
    rw [if_neg (b64char_ne_61 _ h3), if_neg (b64char_ne_61 _ h4)]
    rw [b64sext_b64char _ h1, b64sext_b64char _ h2, b64sext_b64char _ h3, b64sext_b64char _ h4]
    have hrest := ih (fun x hx => h x (by simp [hx]))
    simp only [List.cons.injEq]
    refine ⟨by omega, by omega, by omega, hrest⟩

/-- The recipients list equals `[to] ++ cc ++ bcc` (optional lists
defaulted to `[]`): extending by a falsy `cc`/`bcc` is appending `[]`. -/
theorem recipientsOf_eq (req : SendEmailRequest) :
    recipientsOf req = [req.to_email] ++ req.cc.getD [] ++ req.bcc.getD [] := by
  rcases hc : req.cc with _ | (_ | ⟨c, cs⟩) <;>
    rcases hb : req.bcc with _ | (_ | ⟨b, bs⟩) <;>
      simp [recipientsOf, truthyList, hc, hb]

/-- The outcome and events of the `try` body do not depend on the
pre-existing `smtp_connection` attribute. -/
theorem tryBody_conn_congr (svc : EmailService) (c₁ c₂ : Option Nat)
    (req : SendEmailRequest) (w : World) :
    (tryBody { svc with smtp_connection := c₁ } req w).2 =
    (tryBody { svc with smtp_connection := c₂ } req w).2 := by
  unfold tryBody
  dsimp only
  repeat' split
  all_goals try rfl

/-- The `try` body never reads the `finally`-block quit outcome. -/
theorem tryBody_quitFin_congr (svc : EmailService) (req : SendEmailRequest) (w : World)
    (q : Except PyExc Unit) :
    tryBody svc req { w with smtp := { w.smtp with quitInFinally := q } } =
    tryBody svc req w := by
  unfold tryBody
  dsimp only

/-- `os.path.basename` of a path ending in `'/'` is empty. -/
theorem basename_append_slash (p : String) : basename (p ++ "/") = "" := by
  simp [basename, String.data_append]

/-! ## Concrete fixtures -/

/-- A configured service as built at startup (`smtp_connection = None`). -/
def svc0 : EmailService :=
  { smtp_connection := none
    smtp_server := "smtp.example.com"
    smtp_port := 587
    username := "sender@example.com"
    password := "secret"
    use_tls := true }

def reqPlain : SendEmailRequest :=
  { to_email := "a@example.com"
    subject := "Hi"
    body := "<b>hi</b>" }

/-- An SMTP relay session where every step succeeds (the redundant
`finally` quit on an already-quit connection raises, and is swallowed). -/
def smtpAllOk : SmtpWorld :=
  { connect := .ok 1, starttls := .ok (), login := .ok (), send := .ok ()
    quitInBody := .ok (), quitInFinally := .error (.smtpDisc "closed") }

def wAllOk : World :=
  { parse := fun s => { raw := s, scheme := "http", netloc := "host", path := "/" }
    fetch := fun _ => .netError "unused"
    guess := fun _ => none
    smtp := smtpAllOk
    now := "2026-10-12T00:00:00" }

/-- A request with one attachment URL. -/
def req404 : SendEmailRequest :=
  { reqPlain with attachments := some ["http://files.example.com/missing.pdf"] }

/-- A world where the attachment fetch returns HTTP 404
(`raise_for_status` raises an `HTTPError`, a `RequestException`). -/
def w404 : World :=
  { wAllOk with
    parse := fun s =>
      { raw := s, scheme := "http", netloc := "files.example.com", path := "/missing.pdf" }
    fetch := fun _ =>
      .netError "404 Client Error: Not Found for url: http://files.example.com/missing.pdf" }

/-! ## Claims -/

set_option maxRecDepth 16384 in
/-- C1: a send-email request whose attachment URL fetch fails with HTTP
404 is claimed to yield `statusCode 400`.  The code instead yields
`statusCode 500`: the `HTTPException(400, ...)` raised in the attachment
loop (src/main.py line 210) is itself caught by the blanket
`except Exception` (line 270) and re-raised as
`HTTPException(500, "Failed to send email: ...")`.  The response is an
error, its detail still names the failing URL, and no message is
transmitted (no `sendmail` event, no SMTP session at all). -/
theorem c1_attachment_fetch_failure_yields_500 :
    (send_email (some svc0) req404 w404).2.statusCode = 500 ∧
    (send_email (some svc0) req404 w404).2.statusCode ≠ 400 ∧
    (send_email (some svc0) req404 w404).2.isError = some true ∧
    (send_email (some svc0) req404 w404).2.responseException =
      some ("Failed to send email: 400: Failed to process attachment from URL http://files.example.com/missing.pdf: 400: Failed to download file from URL: 404 Client Error: Not Found for url: http://files.example.com/missing.pdf") ∧
    (EmailService.send_email svc0 req404 w404).2.2 = [] := by
  refine ⟨rfl, by decide, rfl, by decide, rfl⟩

/-- C3 counterexample: handling a request does retain process-wide state
beyond the read-only relay configuration — after a successful send the
shared `EmailService` instance still holds the (closed) SMTP connection
in `smtp_connection`, so the service value after the request differs
from the startup value. -/
theorem c3_counterexample_connection_retained :
    svc0.smtp_connection = none ∧
    (EmailService.send_email svc0 reqPlain wAllOk).1.smtp_connection = some 1 ∧
    (EmailService.send_email svc0 reqPlain wAllOk).1 ≠ svc0 := by
  refine ⟨rfl, rfl, by decide⟩

/-- C3 amended: the retained `smtp_connection` handle is the only extra
state, and the outcome (the `ApiResponse`) of a request does not depend
on it: two services differing only in the retained handle produce the
same response for every request and world. -/
theorem c3_amended_outcome_independent_of_retained_state
    (svc : EmailService) (c₁ c₂ : Option Nat) (req : SendEmailRequest) (w : World) :
    (send_email (some { svc with smtp_connection := c₁ }) req w).2 =
    (send_email (some { svc with smtp_connection := c₂ }) req w).2 := by
  have h : (tryBody { svc with smtp_connection := c₁ } req w).2.1 =
      (tryBody { svc with smtp_connection := c₂ } req w).2.1 :=
    congrArg Prod.fst (tryBody_conn_congr svc c₁ c₂ req w)
  simp only [send_email, EmailService.send_email]
  rw [h]
  cases hx : (tryBody { svc with smtp_connection := c₂ } req w).2.1 <;> rfl

/-- C7: the built message's single body part is tagged `html` exactly
when `body_type` lowercases to `"html"`, and `plain` for every other
`body_type` value. -/
theorem c7_body_type_tagging (svc : EmailService) (req : SendEmailRequest)
    (parts : List AttachmentPart) :
    (pyLower req.body_type ≠ "html" → (buildMessage svc req parts).bodyTag = .plain) ∧
    (pyLower req.body_type = "html" → (buildMessage svc req parts).bodyTag = .html) := by
  constructor <;> intro h <;> simp [buildMessage, h]

theorem c7_body_type_tagging_witness :
    (buildMessage svc0 { reqPlain with body_type := "markdown" } []).bodyTag = .plain ∧
    (buildMessage svc0 { reqPlain with body_type := "HtMl" } []).bodyTag = .html :=
  ⟨(c7_body_type_tagging svc0 { reqPlain with body_type := "markdown" } []).1 (by decide),
   (c7_body_type_tagging svc0 { reqPlain with body_type := "HtMl" } []).2 (by decide)⟩

/-- C9: every attachment part of the built message is base64
transfer-encoded, and decoding the part's payload recovers exactly the
resolved attachment bytes. -/
theorem c9_attachment_base64_roundtrip (d : DownloadOk)
    (h : ∀ b ∈ d.content, b < 256) :
    (buildAttachmentPart d).transfer_encoding = "base64" ∧
    (buildAttachmentPart d).payload_b64 = b64encode d.content ∧
    b64decode (buildAttachmentPart d).payload_b64 = d.content :=
  ⟨rfl, rfl, b64_roundtrip d.content h⟩

/-- A concrete resolved attachment. -/
def d0 : DownloadOk :=
  { content := [72, 0, 255, 10, 200], filename := "report.pdf", content_type := "application/pdf" }

theorem c9_attachment_base64_roundtrip_witness :
    (buildAttachmentPart d0).transfer_encoding = "base64" ∧
    (buildAttachmentPart d0).payload_b64 = b64encode d0.content ∧
    b64decode (buildAttachmentPart d0).payload_b64 = d0.content :=
  c9_attachment_base64_roundtrip d0 (by decide)

/-- C10: a resolved content type with no `'/'` separator does not break
message building — the attachment part is constructed with main type
`application` and subtype `octet-stream`. -/
theorem c10_octet_stream_fallback (d : DownloadOk)
    (h : d.content_type.data.contains '/' = false) :
    (buildAttachmentPart d).main_type = "application" ∧
    (buildAttachmentPart d).sub_type = "octet-stream" := by
  have h2 : ¬ ('/' ∈ d.content_type.data) := by simpa using h
  constructor <;> simp [buildAttachmentPart, splitContentType, h2]

/-- A resolved attachment whose content type has no slash. -/
def d1 : DownloadOk := { content := [1, 2], filename := "blob", content_type := "weirdtype" }

theorem c10_octet_stream_fallback_witness :
    (buildAttachmentPart d1).main_type = "application" ∧
    (buildAttachmentPart d1).sub_type = "octet-stream" :=
  c10_octet_stream_fallback d1 (by decide)

/-- Worlds for the four SMTP failure rows. -/
def wAuthFail : World :=
  { wAllOk with smtp := { smtpAllOk with login := .error (.smtpAuth "bad credentials") } }

def wRcptFail : World :=
  { wAllOk with smtp := { smtpAllOk with send := .error (.smtpRcpt "user refused") } }

def wDiscFail : World :=
  { wAllOk with smtp := { smtpAllOk with send := .error (.smtpDisc "connection dropped") } }

def wOtherFail : World :=
  { wAllOk with smtp := { smtpAllOk with send := .error (.other "boom") } }

/-- C2: once the attachments (if any) resolved and the relay session
opened, an SMTP delivery failure maps exactly per the table:
credential rejection → 401 with authentication detail, recipient
rejection → 400 with invalid-recipient detail, mid-session disconnect →
503 with connection-lost detail, any other fault → 500 with the generic
failure detail. -/
theorem c2_smtp_failure_mapping (svc : EmailService) (req : SendEmailRequest) (w : World)
    (parts : List AttachmentPart) (cid : Nat) (m : String)
    (hA : processAttachments w.parse w.fetch w.guess (req.attachments.getD []) = .ok parts)
    (hc : w.smtp.connect = .ok cid)
    (ht : w.smtp.starttls = .ok ()) :
    (w.smtp.login = .error (.smtpAuth m) →
      (send_email (some svc) req w).2.statusCode = 401 ∧
      (send_email (some svc) req w).2.isError = some true ∧
      (send_email (some svc) req w).2.responseException =
        some ("SMTP Authentication failed: " ++ m)) ∧
    (w.smtp.login = .ok () → w.smtp.send = .error (.smtpRcpt m) →
      (send_email (some svc) req w).2.statusCode = 400 ∧
      (send_email (some svc) req w).2.isError = some true ∧
      (send_email (some svc) req w).2.responseException =
        some ("Invalid recipient email address: " ++ m)) ∧
    (w.smtp.login = .ok () → w.smtp.send = .error (.smtpDisc m) →
      (send_email (some svc) req w).2.statusCode = 503 ∧
      (send_email (some svc) req w).2.isError = some true ∧
      (send_email (some svc) req w).2.responseException =
        some ("SMTP Server connection lost: " ++ m)) ∧
    (w.smtp.login = .ok () → w.smtp.send = .error (.other m) →
      (send_email (some svc) req w).2.statusCode = 500 ∧
      (send_email (some svc) req w).2.isError = some true ∧
      (send_email (some svc) req w).2.responseException =
        some ("Failed to send email: " ++ m)) := by
  refine ⟨?_, ?_, ?_, ?_⟩
  · intro hl
    cases hb : svc.use_tls <;>
      simp [send_email, EmailService.send_email, tryBody, hA, hc, ht, hl, hb, mapExc, PyExc.str]
  · intro hl hs
    cases hb : svc.use_tls <;>
      simp [send_email, EmailService.send_email, tryBody, hA, hc, ht, hl, hs, hb, mapExc,
        PyExc.str]
  · intro hl hs
    cases hb : svc.use_tls <;>
      simp [send_email, EmailService.send_email, tryBody, hA, hc, ht, hl, hs, hb, mapExc,
        PyExc.str]
  · intro hl hs
    cases hb : svc.use_tls <;>
      simp [send_email, EmailService.send_email, tryBody, hA, hc, ht, hl, hs, hb, mapExc,
        PyExc.str]

theorem c2_smtp_failure_mapping_witness :
    ((send_email (some svc0) reqPlain wAuthFail).2.statusCode = 401 ∧
      (send_email (some svc0) reqPlain wAuthFail).2.isError = some true ∧
      (send_email (some svc0) reqPlain wAuthFail).2.responseException =
        some ("SMTP Authentication failed: " ++ "bad credentials")) ∧
    ((send_email (some svc0) reqPlain wRcptFail).2.statusCode = 400 ∧
      (send_email (some svc0) reqPlain wRcptFail).2.isError = some true ∧
      (send_email (some svc0) reqPlain wRcptFail).2.responseException =
        some ("Invalid recipient email address: " ++ "user refused")) ∧
    ((send_email (some svc0) reqPlain wDiscFail).2.statusCode = 503 ∧
      (send_email (some svc0) reqPlain wDiscFail).2.isError = some true ∧
      (send_email (some svc0) reqPlain wDiscFail).2.responseException =
        some ("SMTP Server connection lost: " ++ "connection dropped")) ∧
    ((send_email (some svc0) reqPlain wOtherFail).2.statusCode = 500 ∧
      (send_email (some svc0) reqPlain wOtherFail).2.isError = some true ∧
      (send_email (some svc0) reqPlain wOtherFail).2.responseException =
        some ("Failed to send email: " ++ "boom")) :=
  ⟨(c2_smtp_failure_mapping svc0 reqPlain wAuthFail [] 1 "bad credentials" rfl rfl rfl).1 rfl,
   (c2_smtp_failure_mapping svc0 reqPlain wRcptFail [] 1 "user refused" rfl rfl rfl).2.1 rfl rfl,
   (c2_smtp_failure_mapping svc0 reqPlain wDiscFail [] 1 "connection dropped" rfl rfl rfl).2.2.1
     rfl rfl,
   (c2_smtp_failure_mapping svc0 reqPlain wOtherFail [] 1 "boom" rfl rfl rfl).2.2.2 rfl rfl⟩

/-- C4: whatever the outcome, any `sendmail` call issued by a send
receives exactly the recipient list `[toEmail] ++ cc ++ bcc`, in that
order, duplicates allowed. -/
theorem c4_recipients_order (svc : EmailService) (req : SendEmailRequest) (w : World)
    (s : String) (r : List String) (m : Message)
    (h : Ev.sendmailEv s r m ∈ (EmailService.send_email svc req w).2.2) :
    r = [req.to_email] ++ req.cc.getD [] ++ req.bcc.getD [] := by
  rw [← recipientsOf_eq]
  unfold EmailService.send_email tryBody at h
  dsimp only at h
  repeat' split at h
  all_goals simp_all

/-- A request with both Cc and Bcc recipients. -/
def reqCc : SendEmailRequest :=
  { reqPlain with cc := some ["c@example.com"], bcc := some ["b@example.com"] }

theorem c4_recipients_order_witness :
    (["a@example.com", "c@example.com", "b@example.com"] : List String) =
      [reqCc.to_email] ++ reqCc.cc.getD [] ++ reqCc.bcc.getD [] :=
  c4_recipients_order svc0 reqCc wAllOk "sender@example.com"
    ["a@example.com", "c@example.com", "b@example.com"]
    (buildMessage svc0 reqCc []) (by decide)

/-- Overflow behaviour of the download loop: once the accumulated bytes
exceed the limit within the chunks `c₁`, the loop fails with the
oversize error, and the result is the same whatever chunks follow —
nothing after the first overflowing chunk is consumed. -/
theorem streamChunks_overflow (maxMb maxB : Nat) (c₂ : List (List Nat)) :
    ∀ (c₁ : List (List Nat)) (acc : List Nat), acc.length ≤ maxB →
      maxB < acc.length + c₁.flatten.length →
      streamChunks maxMb maxB (c₁ ++ c₂) acc =
          .error ⟨400, "File too large. Maximum size allowed: " ++ toString maxMb ++ "MB"⟩ ∧
        streamChunks maxMb maxB c₁ acc =
          .error ⟨400, "File too large. Maximum size allowed: " ++ toString maxMb ++ "MB"⟩ := by
  intro c₁
  induction c₁ with
  | nil =>
    intro acc hle hgt
    exfalso
    simp at hgt
    omega
  | cons chunk rest ih =>
    intro acc hle hgt
    simp only [List.cons_append, streamChunks]
    by_cases hov : (acc ++ chunk).length > maxB
    · rw [if_pos hov, if_pos hov]
      exact ⟨rfl, rfl⟩
    · rw [if_neg hov, if_neg hov]
      have hlen : (acc ++ chunk).length = acc.length + chunk.length := by simp
      have hj : (chunk :: rest).flatten.length = chunk.length + rest.flatten.length := by simp
      exact ih (acc ++ chunk) (by omega) (by omega)

/-- C5: with the default 10 MiB limit, a declared `Content-Length` above
the limit fails resolution whatever the body chunks are (no body bytes
enter the result) — the oversize `HTTPException(400)` raised before the
download loop leaves the function wrapped by its own `except Exception`
as the 500 "Error processing attachment URL" error — and during
streaming the loop fails at the first overflow, never consuming chunks
past it. -/
theorem c5_size_limit_enforcement :
    (∀ (u : Url) (resp : HttpResponse) (g : String → Option String) (cl : Nat)
        (chunks : List (List Nat)),
      u.scheme ≠ "" → u.netloc ≠ "" → resp.contentLength = some cl →
      10 * 1024 * 1024 < cl →
      download_file_from_url u (.ok { resp with chunks := chunks }) g 10 =
        .error ⟨500, "Error processing attachment URL: " ++
          PyExc.str (.http 400 ("File too large. Maximum size allowed: "
            ++ toString 10 ++ "MB"))⟩) ∧
    (∀ (maxMb maxB : Nat) (c₁ c₂ : List (List Nat)) (acc : List Nat),
      acc.length ≤ maxB → maxB < acc.length + c₁.flatten.length →
      streamChunks maxMb maxB (c₁ ++ c₂) acc =
          .error ⟨400, "File too large. Maximum size allowed: " ++ toString maxMb ++ "MB"⟩ ∧
        streamChunks maxMb maxB c₁ acc =
          .error ⟨400, "File too large. Maximum size allowed: " ++ toString maxMb ++ "MB"⟩) := by
  constructor
  · intro u resp g cl chunks hs hn hcl hbig
    simp [download_file_from_url, downloadTryBody, PyExc.str, hs, hn, hcl, hbig]
  · intro maxMb maxB c₁ c₂ acc h1 h2
    exact streamChunks_overflow maxMb maxB c₂ c₁ acc h1 h2

theorem c5_size_limit_enforcement_witness :
    (download_file_from_url ⟨"http://h/big.bin", "http", "h", "/big.bin"⟩
        (.ok { contentLength := some 10485761, chunks := [[1, 2, 3]] }) (fun _ => none) 10 =
      .error ⟨500, "Error processing attachment URL: " ++
        PyExc.str (.http 400 ("File too large. Maximum size allowed: "
          ++ toString 10 ++ "MB"))⟩) ∧
    (streamChunks 10 4 ([[1, 2, 3], [4, 5]] ++ [[9]]) [] =
        .error ⟨400, "File too large. Maximum size allowed: " ++ toString 10 ++ "MB"⟩ ∧
      streamChunks 10 4 [[1, 2, 3], [4, 5]] [] =
        .error ⟨400, "File too large. Maximum size allowed: " ++ toString 10 ++ "MB"⟩) :=
  ⟨c5_size_limit_enforcement.1 ⟨"http://h/big.bin", "http", "h", "/big.bin"⟩
      { contentLength := some 10485761, chunks := [[1, 2, 3]] } (fun _ => none) 10485761
      [[1, 2, 3]] (by decide) (by decide) rfl (by decide),
   c5_size_limit_enforcement.2 10 4 [[1, 2, 3], [4, 5]] [[9]] [] (by decide) (by decide)⟩

/-- C6: the attachment filename is resolved in order: the
`Content-Disposition` `filename=` value with surrounding quotes stripped
when present and non-empty; else the last path segment of the URL when
non-empty and not `"/"`; else the literal `"attachment"` — in
particular, any URL path ending in `'/'` with no `Content-Disposition`
resolves to exactly `"attachment"`. -/
theorem c6_filename_resolution_order :
    (∀ cd path f, extractCdFilename cd = some f → f ≠ "" →
      resolveFilename cd path = f) ∧
    (∀ cd path,
      (extractCdFilename cd = none ∨ extractCdFilename cd = some "") →
      basename path ≠ "" → basename path ≠ "/" →
      resolveFilename cd path = basename path) ∧
    (∀ cd path,
      (extractCdFilename cd = none ∨ extractCdFilename cd = some "") →
      (basename path = "" ∨ basename path = "/") →
      resolveFilename cd path = "attachment") ∧
    (∀ p, resolveFilename "" (p ++ "/") = "attachment") := by
  refine ⟨?_, ?_, ?_, ?_⟩
  · intro cd path f he hf
    simp [resolveFilename, he, hf]
  · intro cd path he h1 h2
    rcases he with he | he <;> simp [resolveFilename, he, h1, h2]
  · intro cd path he h12
    rcases he with he | he <;> rcases h12 with h | h <;> simp [resolveFilename, he, h]
  · intro p
    have h0 : extractCdFilename "" = none := rfl
    simp [resolveFilename, h0, basename_append_slash p]

theorem c6_filename_resolution_order_witness :
    resolveFilename "attachment; filename=\"report.pdf\"" "/x/y" = "report.pdf" ∧
    resolveFilename "" "/docs/dir/" = "attachment" :=
  ⟨c6_filename_resolution_order.1 "attachment; filename=\"report.pdf\"" "/x/y" "report.pdf"
      (by decide) (by decide),
   c6_filename_resolution_order.2.2.1 "" "/docs/dir/" (Or.inl (by decide)) (Or.inl (by decide))⟩

/-- A world where the send succeeds but the explicit `quit()` on the
success path (src/main.py line 236) raises `SMTPServerDisconnected`. -/
def wQuitFail : World :=
  { wAllOk with
    smtp := { smtpAllOk with quitInBody := .error (.smtpDisc "Connection unexpectedly closed") } }

/-- C8 counterexample: a closure failure IS reported to the caller — when
the in-`try` `quit()` (line 236) raises after a successful `sendmail`,
the response is a 503 error naming the connection loss, although the
message was transmitted.  Only the `finally`-block quit (line 279) is
swallowed. -/
theorem c8_counterexample_closure_failure_reported :
    Ev.sendmailEv "sender@example.com" (recipientsOf reqPlain) (buildMessage svc0 reqPlain []) ∈
      (EmailService.send_email svc0 reqPlain wQuitFail).2.2 ∧
    (send_email (some svc0) reqPlain wQuitFail).2.statusCode = 503 ∧
    (send_email (some svc0) reqPlain wQuitFail).2.isError = some true ∧
    (send_email (some svc0) reqPlain wQuitFail).2.responseException =
      some ("SMTP Server connection lost: Connection unexpectedly closed") := by
  refine ⟨by decide, rfl, rfl, by decide⟩

/-- C8 amended: whenever a connection is opened during the call, the
`finally` block always attempts a final `quit()` on it on every exit
path, and an error from that `finally`-block quit is swallowed: the
outcome never depends on it.  (A failure of the explicit success-path
`quit()` before the return, however, is reported as a transmission
error.) -/
theorem c8_amended_finally_closure (svc : EmailService) (req : SendEmailRequest) (w : World)
    (parts : List AttachmentPart) (cid : Nat) (q : Except PyExc Unit)
    (hA : processAttachments w.parse w.fetch w.guess (req.attachments.getD []) = .ok parts)
    (hc : w.smtp.connect = .ok cid) :
    Ev.quitFin cid (isOkB w.smtp.quitInFinally) ∈ (EmailService.send_email svc req w).2.2 ∧
    (EmailService.send_email svc req
        { w with smtp := { w.smtp with quitInFinally := q } }).2.1 =
      (EmailService.send_email svc req w).2.1 := by
  constructor
  · cases hb : svc.use_tls <;> cases hst : w.smtp.starttls <;> cases hl : w.smtp.login <;>
      cases hsd : w.smtp.send <;> cases hq : w.smtp.quitInBody <;>
        simp [EmailService.send_email, tryBody, hA, hc, hb, hst, hl, hsd, hq]
  · have h := tryBody_quitFin_congr svc req w q
    simp only [EmailService.send_email]
    rw [h]

theorem c8_amended_finally_closure_witness :
    Ev.quitFin 1 (isOkB wAllOk.smtp.quitInFinally) ∈
      (EmailService.send_email svc0 reqPlain wAllOk).2.2 ∧
    (EmailService.send_email svc0 reqPlain
        { wAllOk with smtp := { wAllOk.smtp with quitInFinally := .ok () } }).2.1 =
      (EmailService.send_email svc0 reqPlain wAllOk).2.1 :=
  c8_amended_finally_closure svc0 reqPlain wAllOk [] 1 (.ok ()) rfl rfl
